import Mathlib

/-!
Shallow embedding of the record-transformation core of `etl.py` (song/log
ETL into a star schema), together with theorems checking the spec's claims
about it.

The embedding models:
  * `process_song_file` (etl.py lines 8-30): first-record extraction of a
    Song row and an Artist row from a parsed song-metadata file;
  * `process_log_file` (etl.py lines 33-100): NextSong filtering, the
    millisecond-to-second ceiling of `ts`, the time and user dimension
    rows, and the songplay fact resolution via the `song_select` lookup;
  * the record-parsing contract of `pd.read_json(filepath, lines=True)`,
    modelled from the spec since the parser is an external library.

Database cursors are modelled by explicit values: the lookup capability is
a function returning the query result rows (the `song_select` join can in
principle return several rows; `cur.fetchone()` takes the head), and a
raised exception is an `Except.error` that aborts the remaining iteration.
-/

namespace Etl

/-- A value as handed to the database driver.  `pd.Timestamp` objects and
`datetime.time` objects (produced by `.dt.time` on line 61 of etl.py) are
distinct kinds of values; a timestamp is milliseconds since the epoch, a
time-of-day is milliseconds into its day. -/
inductive SqlValue where
  | timestamp (ms : Nat)
  | timeOfDay (msOfDay : Nat)
deriving DecidableEq, Repr

/-- One activity-log event, one line of a log JSON file.  Field names
follow the source columns (`df['page']`, `df['ts']`, `row.userId`, ...).
`ts` is milliseconds since the epoch; `length` is the song duration in
seconds (a float in the source, modelled as a rational). -/
structure ActivityEvent where
  page : String
  ts : Nat
  userId : String
  firstName : String
  lastName : String
  gender : String
  level : String
  song : String
  artist : String
  length : Rat
  sessionId : Nat
  location : String
  userAgent : String
deriving DecidableEq, Repr

/-- Line 53 of etl.py: `df = df[df['page'] == 'NextSong']`. -/
def eventFilter (events : List ActivityEvent) : List ActivityEvent :=
  events.filter (fun e => e.page == "NextSong")

/-- Line 56 of etl.py: `pd.to_datetime(df['ts'], unit='ms').dt.ceil(freq='s')`.
Milliseconds rounded up to the next whole second, kept in milliseconds. -/
def ceilMs (ms : Nat) : Nat :=
  1000 * ((ms + 999) / 1000)

/-- Lines 53 and 56 of etl.py combined: the filtered event sequence with
every timestamp ceiled to the second.  This is the `df` that feeds the
time, user and songplay sections of `process_log_file`. -/
def filteredConverted (events : List ActivityEvent) : List ActivityEvent :=
  (eventFilter events).map (fun e => { e with ts := ceilMs e.ts })

/-- Days-since-epoch to civil (year, month, day), proleptic Gregorian. -/
def civilFromDays (days : Nat) : Nat × Nat × Nat :=
  let z := days + 719468
  let era := z / 146097
  let doe := z % 146097
  let yoe := (doe - doe / 1460 + doe / 36524 - doe / 146096) / 365
  let y := yoe + era * 400
  let doy := doe - (365 * yoe + yoe / 4 - yoe / 100)
  let mp := (5 * doy + 2) / 153
  let d := doy - (153 * mp + 2) / 5 + 1
  let m := if mp < 10 then mp + 3 else mp - 9
  (if m ≤ 2 then y + 1 else y, m, d)

/-- Gregorian leap-year test. -/
def isLeap (y : Nat) : Bool :=
  y % 4 == 0 && (y % 100 != 0 || y % 400 == 0)

/-- Days in the months before month `m` (1-12) of a common/leap year. -/
def daysBeforeMonth (m : Nat) (leap : Bool) : Nat :=
  let cum := [0, 31, 59, 90, 120, 151, 181, 212, 243, 273, 304, 334]
  cum.getD (m - 1) 0 + (if leap && m > 2 then 1 else 0)

/-- One-based ordinal day of the year of a civil date. -/
def dayOfYear (y m d : Nat) : Nat :=
  daysBeforeMonth m (isLeap y) + d

/-- ISO day of week, Monday = 1 .. Sunday = 7; day 0 (1970-01-01) was a
Thursday. -/
def isoDayOfWeek (days : Nat) : Nat :=
  (days + 3) % 7 + 1

/-- Weekday name as produced by `day_name()` (full English name). -/
def dayName (days : Nat) : String :=
  ["Thursday", "Friday", "Saturday", "Sunday", "Monday", "Tuesday",
    "Wednesday"].getD (days % 7) ""

/-- Number of ISO weeks in year `y` (52 or 53). -/
def isoWeeksInYear (y : Nat) : Nat :=
  let p := fun (n : Nat) => (n + n / 4 - n / 100 + n / 400) % 7
  if p y = 4 || p (y - 1) = 3 then 53 else 52

/-- ISO-8601 week number of the date `days` since the epoch with civil
parts (y, m, d); the `.dt.week` accessor of line 64 of etl.py. -/
def isoWeek (days y m d : Nat) : Nat :=
  let doy := dayOfYear y m d
  let dow := isoDayOfWeek days
  let w := (doy + 10 - dow) / 7
  if w = 0 then isoWeeksInYear (y - 1)
  else if isoWeeksInYear y < w then 1
  else w

/-- One row of `time_df` (etl.py lines 59-74): start_time is the
time-of-day component `df['ts'].dt.time` of line 61 (the ts here has
already been ceiled by line 56), the remaining columns are the calendar
accessors of lines 62-67. -/
structure TimeRow where
  start_time : SqlValue
  hour : Nat
  day : Nat
  week : Nat
  month : Nat
  year : Nat
  weekday : String
deriving DecidableEq, Repr

/-- Build the TimeRow of one (already converted) event, etl.py lines 61-67. -/
def mkTimeRow (e : ActivityEvent) : TimeRow :=
  let secs := e.ts / 1000
  let days := secs / 86400
  let ymd := civilFromDays days
  { start_time := SqlValue.timeOfDay (e.ts % 86400000)
    hour := secs % 86400 / 3600
    day := ymd.2.2
    week := isoWeek days ymd.1 ymd.2.1 ymd.2.2
    month := ymd.2.1
    year := ymd.1
    weekday := dayName days }

/-- One row of `user_df` (etl.py line 80): the five selected columns. -/
structure UserRow where
  userId : String
  firstName : String
  lastName : String
  gender : String
  level : String
deriving DecidableEq, Repr

/-- Project one event onto the five user columns, etl.py line 80. -/
def mkUserRow (e : ActivityEvent) : UserRow :=
  { userId := e.userId
    firstName := e.firstName
    lastName := e.lastName
    gender := e.gender
    level := e.level }

/-- Keep-first duplicate removal with an accumulator of already seen
values; the semantics of `DataFrame.drop_duplicates()` (default
keep='first') on line 80 of etl.py. -/
def dropDupAux [DecidableEq α] (seen : List α) : List α → List α
  | [] => []
  | x :: xs => if x ∈ seen then dropDupAux seen xs else x :: dropDupAux (x :: seen) xs

/-- `drop_duplicates()` of etl.py line 80. -/
def dropDuplicates [DecidableEq α] (l : List α) : List α :=
  dropDupAux [] l

/-- The error raised when the lookup capability itself fails (a database
error from `cur.execute(song_select, ...)`), as opposed to an empty
result. -/
inductive LookupFailure where
  | failure
deriving DecidableEq, Repr

/-- Modelled from the spec: the lookup capability (`song_select` lives in
`sql_queries.py`, outside the transformation core) is an exact-match join
on (title, artist name, duration) against previously loaded Song/Artist
rows.  It returns the full result set of (song_id, artist_id) rows, which
may hold zero, one or several matches; `cur.fetchone()` then takes the
head.  A raised error is `Except.error`. -/
def Lookup : Type :=
  String → String → Rat → Except LookupFailure (List (String × String))

/-- One songplay fact row, the `songplay_data` list of etl.py line 99:
`[row.ts, row.userId, row.level, songid, artistid, row.sessionId,
row.location, row.userAgent]`.  `row.ts` is the full (ceiled) timestamp. -/
structure SongplayFact where
  start_time : SqlValue
  userId : String
  level : String
  song_id : Option String
  artist_id : Option String
  sessionId : Nat
  location : String
  userAgent : String
deriving DecidableEq, Repr

/-- Lines 91-99 of etl.py for one event: `results = cur.fetchone()` is the
head of the result set; `if results: songid, artistid = results else
None, None`; then the fact row is assembled from the event. -/
def mkSongplay (e : ActivityEvent) (results : Option (String × String)) : SongplayFact :=
  { start_time := SqlValue.timestamp e.ts
    userId := e.userId
    level := e.level
    song_id := results.map Prod.fst
    artist_id := results.map Prod.snd
    sessionId := e.sessionId
    location := e.location
    userAgent := e.userAgent }

/-- The songplay loop of etl.py lines 87-100.  Each event issues one
synchronous lookup; a raised `LookupFailure` propagates out of the loop,
so no fact is produced for the failing event or any later event, while
facts already produced for earlier events stand.  Returns the emitted
facts and the error that aborted the loop, if any. -/
def resolveEvents (lookup : Lookup) : List ActivityEvent → List SongplayFact × Option LookupFailure
  | [] => ([], none)
  | e :: rest =>
    match lookup e.song e.artist e.length with
    | .error err => ([], some err)
    | .ok rows =>
      let out := resolveEvents lookup rest
      (mkSongplay e rows.head? :: out.1, out.2)

/-- The result rows of a lookup call, empty when the call failed; used to
describe which fact the loop emits for an event whose lookup succeeded. -/
def rowsOf : Except LookupFailure (List (String × String)) → List (String × String)
  | .ok rows => rows
  | .error _ => []

/-- The fact the songplay loop emits for one event whose lookup
succeeded. -/
def factOf (lookup : Lookup) (e : ActivityEvent) : SongplayFact :=
  mkSongplay e (rowsOf (lookup e.song e.artist e.length)).head?

/-- Everything one call of `process_log_file` hands to the database: the
time rows of lines 76-77, the user rows of lines 83-84, the songplay
facts of lines 87-100, and the lookup error that aborted the songplay
loop, if any. -/
structure LogFileOutput where
  timeRows : List TimeRow
  userRows : List UserRow
  facts : List SongplayFact
  lookupError : Option LookupFailure
deriving DecidableEq, Repr

/-- `process_log_file` of etl.py lines 33-100, for one parsed log file:
filter to NextSong (line 53), ceil `ts` to the second (line 56), emit one
TimeRow per event (lines 59-77), the deduplicated user rows (lines
79-84), and the songplay facts (lines 87-100). -/
def process_log_file (lookup : Lookup) (events : List ActivityEvent) : LogFileOutput :=
  let df := filteredConverted events
  let resolved := resolveEvents lookup df
  { timeRows := df.map mkTimeRow
    userRows := dropDuplicates (df.map mkUserRow)
    facts := resolved.1
    lookupError := resolved.2 }

/-- One record of a song-metadata file; the columns selected on lines 25
and 29 of etl.py.  Location, latitude and longitude may be missing. -/
structure SongRecord where
  song_id : String
  title : String
  artist_id : String
  artist_name : String
  artist_location : Option String
  artist_latitude : Option Rat
  artist_longitude : Option Rat
  year : Nat
  duration : Rat
deriving DecidableEq, Repr

/-- The `song_data` row of etl.py line 25. -/
structure Song where
  song_id : String
  title : String
  artist_id : String
  year : Nat
  duration : Rat
deriving DecidableEq, Repr

/-- The `artist_data` row of etl.py line 29. -/
structure Artist where
  artist_id : String
  name : String
  location : Option String
  latitude : Option Rat
  longitude : Option Rat
deriving DecidableEq, Repr

/-- Line 25 of etl.py: the five song columns of the record. -/
def mkSong (r : SongRecord) : Song :=
  { song_id := r.song_id
    title := r.title
    artist_id := r.artist_id
    year := r.year
    duration := r.duration }

/-- Line 29 of etl.py: the five artist columns of the record. -/
def mkArtist (r : SongRecord) : Artist :=
  { artist_id := r.artist_id
    name := r.artist_name
    location := r.artist_location
    latitude := r.artist_latitude
    longitude := r.artist_longitude }

/-- The error raised by `.values[0]` on an empty frame (etl.py line 25). -/
inductive SongFileError where
  | indexError
deriving DecidableEq, Repr

/-- `process_song_file` of etl.py lines 8-30, for one parsed song file:
both inserts take record 0 of the frame, so only the first record is
used; on an empty frame the `.values[0]` access raises before any row is
produced. -/
def process_song_file (records : List SongRecord) : Except SongFileError (Song × Artist) :=
  match records with
  | [] => .error .indexError
  | r :: _ => .ok (mkSong r, mkArtist r)

/-- A flat key-value record as delivered by the record parser. -/
abbrev Record : Type := List (String × String)

/-- Errors of reading and parsing one file: the file is unreadable, or
its contents are not well-formed line-structured records. -/
inductive ReadError where
  | ioError
  | parseError
deriving DecidableEq, Repr

/-- Modelled from the spec: one `key=value` field of a flat record line;
the concrete line grammar of `pd.read_json(..., lines=True)` is an
external library detail, so the structured line-record format of the
spec is modelled with `=` and `;` separators. -/
def parseField (s : String) : Option (String × String) :=
  match s.splitOn "=" with
  | [k, v] => some (k, v)
  | _ => none

/-- Modelled from the spec: one line of a line-delimited record file as a
flat key-value record; fails on a malformed field. -/
def parseLine (line : String) : Option Record :=
  (line.splitOn ";").mapM parseField

/-- Modelled from the spec: RecordParser on file contents — one record
per non-empty line, in file order; a malformed line is a ParseError for
the whole file. -/
def recordParser (contents : String) : Except ReadError (List Record) :=
  match ((contents.splitOn "\n").filter (fun l => !(l == ""))).mapM parseLine with
  | some records => .ok records
  | none => .error .parseError

/-- Modelled from the spec: reading then parsing one file of a file
system (a map from paths to contents); an unreadable file is an IOError,
and the records are a function of the file contents alone. -/
def readRecords (fs : String → Option String) (path : String) : Except ReadError (List Record) :=
  match fs path with
  | none => .error .ioError
  | some contents => recordParser contents

/-- A concrete activity event used by the example inputs below. -/
def sampleEvent (page song userId level : String) (ts : Nat) : ActivityEvent :=
  { page := page, ts := ts, userId := userId, firstName := "A", lastName := "B",
    gender := "F", level := level, song := song, artist := "Artist",
    length := (200 : Rat), sessionId := 1, location := "NYC", userAgent := "UA" }

/-! ### Helper lemmas about keep-first duplicate removal -/

theorem dropDupAux_sublist [DecidableEq α] (seen : List α) (l : List α) :
    List.Sublist (dropDupAux seen l) l := by
  induction l generalizing seen with
  | nil => simp [dropDupAux]
  | cons x xs ih =>
    by_cases h : x ∈ seen
    · simpa [dropDupAux, h] using (ih seen).cons x
    · simpa [dropDupAux, h] using (ih (x :: seen)).cons₂ x

theorem dropDupAux_mem [DecidableEq α] (seen : List α) (l : List α) (a : α) :
    a ∈ dropDupAux seen l ↔ a ∈ l ∧ a ∉ seen := by
  induction l generalizing seen with
  | nil => simp [dropDupAux]
  | cons x xs ih =>
    by_cases h : x ∈ seen
    · rw [dropDupAux, if_pos h, ih]
      constructor
      · rintro ⟨ha, hs⟩
        exact ⟨List.mem_cons_of_mem _ ha, hs⟩
      · rintro ⟨ha, hs⟩
        rcases List.mem_cons.mp ha with rfl | ha
        · exact absurd h hs
        · exact ⟨ha, hs⟩
    · rw [dropDupAux, if_neg h, List.mem_cons, ih]
      constructor
      · rintro (rfl | ⟨ha, hs⟩)
        · exact ⟨List.mem_cons_self _ _, h⟩
        · exact ⟨List.mem_cons_of_mem _ ha, fun hx => hs (List.mem_cons_of_mem _ hx)⟩
      · rintro ⟨ha, hs⟩
        rcases List.mem_cons.mp ha with rfl | ha
        · exact Or.inl rfl
        · by_cases hax : a = x
          · exact Or.inl hax
          · exact Or.inr ⟨ha, fun hx => (List.mem_cons.mp hx).elim hax hs⟩

theorem dropDupAux_nodup [DecidableEq α] (seen : List α) (l : List α) :
    (dropDupAux seen l).Nodup := by
  induction l generalizing seen with
  | nil => simp [dropDupAux]
  | cons x xs ih =>
    by_cases h : x ∈ seen
    · simpa [dropDupAux, h] using ih seen
    · rw [dropDupAux, if_neg h, List.nodup_cons]
      refine ⟨fun hx => ?_, ih (x :: seen)⟩
      exact ((dropDupAux_mem _ _ _).mp hx).2 (List.mem_cons_self x seen)

theorem dropDupAux_congr [DecidableEq α] (s t : List α) (l : List α)
    (h : ∀ a, a ∈ s ↔ a ∈ t) : dropDupAux s l = dropDupAux t l := by
  induction l generalizing s t with
  | nil => rfl
  | cons x xs ih =>
    by_cases hx : x ∈ s
    · rw [dropDupAux, if_pos hx, dropDupAux, if_pos ((h x).mp hx)]
      exact ih s t h
    · have hx' : x ∉ t := fun hm => hx ((h x).mpr hm)
      rw [dropDupAux, if_neg hx, dropDupAux, if_neg hx']
      refine congrArg (x :: ·) (ih (x :: s) (x :: t) fun a => ?_)
      simp [List.mem_cons, h a]

theorem dropDupAux_cons_filter [DecidableEq α] (x : α) (seen : List α) (l : List α) :
    dropDupAux (x :: seen) l = dropDupAux seen (l.filter (fun y => !(y == x))) := by
  induction l generalizing seen with
  | nil => rfl
  | cons y ys ih =>
    by_cases hyx : y = x
    · subst hyx
      have : (y == y) = true := beq_self_eq_true y
      simp only [List.filter_cons, this, Bool.not_true, dropDupAux,
        if_pos (List.mem_cons_self y seen), if_false]
      exact ih seen
    · have hbeq : (y == x) = false := beq_eq_false_iff_ne.mpr hyx
      by_cases hys : y ∈ seen
      · have hmem : y ∈ x :: seen := List.mem_cons_of_mem _ hys
        simp only [List.filter_cons, hbeq, Bool.not_false, if_true, dropDupAux,
          if_pos hmem, if_pos hys]
        exact ih seen
      · have hmem : y ∉ x :: seen := by
          intro hc
          rcases List.mem_cons.mp hc with rfl | hc
          · exact hyx rfl
          · exact hys hc
        simp only [List.filter_cons, hbeq, Bool.not_false, if_true, dropDupAux,
          if_neg hmem, if_neg hys]
        refine congrArg (y :: ·) ?_
        have hswap : dropDupAux (y :: x :: seen) ys = dropDupAux (x :: y :: seen) ys :=
          dropDupAux_congr _ _ _ fun a => by
            simp only [List.mem_cons]
            tauto
        rw [hswap, ih (y :: seen)]

theorem dropDuplicates_cons [DecidableEq α] (x : α) (l : List α) :
    dropDuplicates (x :: l) = x :: dropDuplicates (l.filter (fun y => !(y == x))) := by
  rw [dropDuplicates, dropDupAux, if_neg (List.not_mem_nil x), dropDuplicates]
  exact congrArg (x :: ·) (dropDupAux_cons_filter x [] l)

/-! ### Helper lemma about the songplay loop -/

theorem resolveEvents_append (lookup : Lookup) (pre rest : List ActivityEvent)
    (h : ∀ p ∈ pre, ∃ rows, lookup p.song p.artist p.length = Except.ok rows) :
    resolveEvents lookup (pre ++ rest)
      = (pre.map (factOf lookup) ++ (resolveEvents lookup rest).1,
         (resolveEvents lookup rest).2) := by
  induction pre with
  | nil => simp [resolveEvents]
  | cons p pre ih =>
    obtain ⟨rows, hrows⟩ := h p (List.mem_cons_self p pre)
    have ih' := ih fun q hq => h q (List.mem_cons_of_mem _ hq)
    simp [resolveEvents, hrows, ih', factOf, rowsOf]

/-! ### Claim theorems -/

/-- C2: for every filtered event, the derived start_time is the event's
millisecond timestamp rounded up (ceiling) to the nearest whole second:
`ceilMs ms` is the least multiple of 1000 at or above `ms`, it leaves an
exact second boundary unchanged, moves any sub-second remainder to the
next whole second, and it is exactly the conversion applied to every
filtered event of `process_log_file`. -/
theorem start_time_ceiling (ms : Nat) :
    ms ≤ ceilMs ms ∧
    ceilMs ms % 1000 = 0 ∧
    (∀ t, ms ≤ t → t % 1000 = 0 → ceilMs ms ≤ t) ∧
    (ms % 1000 = 0 → ceilMs ms = ms) ∧
    (ms % 1000 ≠ 0 → ceilMs ms = 1000 * (ms / 1000) + 1000) ∧
    (∀ events, filteredConverted events
        = (eventFilter events).map fun e => { e with ts := ceilMs e.ts }) := by
  refine ⟨?_, ?_, fun t h1 h2 => ?_, fun h => ?_, fun h => ?_, fun _ => rfl⟩ <;>
    · simp only [ceilMs]
      omega

/-- Witness for C2 at the two timestamps named by the spec: the exact
second boundary 1541990258000 ms is unchanged and 1541990258500 ms rounds
up to 1541990259000 ms. -/
theorem start_time_ceiling_witness :
    ceilMs 1541990258000 = 1541990258000 ∧ ceilMs 1541990258500 = 1541990259000 := by
  refine ⟨(start_time_ceiling 1541990258000).2.2.2.1 (by decide), ?_⟩
  rw [(start_time_ceiling 1541990258500).2.2.2.2.1 (by decide)]

/-- C3: the event filter keeps exactly the events whose `page` column is
NextSong, as an order-preserving subsequence of the input (with the
multiplicity of every NextSong event preserved), and the filtered
sequence is the sole input of the time, user and songplay sections:
running `process_log_file` on the already filtered sequence changes
nothing. -/
theorem event_filter_spec (events : List ActivityEvent) :
    List.Sublist (eventFilter events) events ∧
    (∀ e, e ∈ eventFilter events ↔ e ∈ events ∧ e.page = "NextSong") ∧
    (∀ e, e.page = "NextSong" → (eventFilter events).count e = events.count e) ∧
    (∀ lookup, process_log_file lookup (eventFilter events) = process_log_file lookup events) := by
  have hidem : eventFilter (eventFilter events) = eventFilter events :=
    List.filter_eq_self.mpr fun a ha => (List.mem_filter.mp ha).2
  refine ⟨List.filter_sublist _, fun e => ?_, fun e he => ?_, fun lookup => ?_⟩
  · simp [eventFilter, List.mem_filter]
  · have hp : (fun x : ActivityEvent => x.page == "NextSong") e = true := by
      simp [he]
    simpa [eventFilter] using List.count_filter (p := fun x : ActivityEvent => x.page == "NextSong") hp
  · have hfc : filteredConverted (eventFilter events) = filteredConverted events := by
      rw [filteredConverted, hidem, filteredConverted]
    simp [process_log_file, hfc]

/-- Witness for C3: a NextSong event keeps its multiplicity through the
filter on a concrete two-event input. -/
theorem event_filter_spec_witness :
    (eventFilter [sampleEvent "NextSong" "sa" "1" "free" 1000,
        sampleEvent "Home" "sb" "1" "free" 2000]).count
        (sampleEvent "NextSong" "sa" "1" "free" 1000)
      = [sampleEvent "NextSong" "sa" "1" "free" 1000,
          sampleEvent "Home" "sb" "1" "free" 2000].count
          (sampleEvent "NextSong" "sa" "1" "free" 1000) :=
  (event_filter_spec _).2.2.1 _ rfl

/-- C5: `process_log_file` emits exactly one TimeRow per filtered event,
in event order and without any deduplication by timestamp: the time rows
are precisely the per-event rows, so their number equals the length of
the filtered event sequence. -/
theorem time_rows_one_per_event (lookup : Lookup) (events : List ActivityEvent) :
    (process_log_file lookup events).timeRows.length = (eventFilter events).length ∧
    (process_log_file lookup events).timeRows
      = (eventFilter events).map fun e => mkTimeRow { e with ts := ceilMs e.ts } := by
  constructor <;>
    simp [process_log_file, filteredConverted, List.map_map, Function.comp]

/-- C7: `process_song_file` uses only the first record of the file, and
produces one Song row and one Artist row sharing the same artist_id,
each field copied 1:1 from the source record. -/
theorem song_file_first_record (r : SongRecord) (rest : List SongRecord) :
    process_song_file (r :: rest) = Except.ok (mkSong r, mkArtist r) ∧
    process_song_file (r :: rest) = process_song_file [r] ∧
    (mkSong r).artist_id = (mkArtist r).artist_id ∧
    (mkSong r).song_id = r.song_id ∧ (mkSong r).title = r.title ∧
    (mkSong r).artist_id = r.artist_id ∧ (mkSong r).year = r.year ∧
    (mkSong r).duration = r.duration ∧
    (mkArtist r).artist_id = r.artist_id ∧ (mkArtist r).name = r.artist_name ∧
    (mkArtist r).location = r.artist_location ∧
    (mkArtist r).latitude = r.artist_latitude ∧
    (mkArtist r).longitude = r.artist_longitude :=
  ⟨rfl, rfl, rfl, rfl, rfl, rfl, rfl, rfl, rfl, rfl, rfl, rfl, rfl⟩

/-- C10: a song-metadata file that parses to zero records makes
`process_song_file` fail with the out-of-bounds first-record access, and
no Song or Artist row is produced. -/
theorem song_file_empty_errors :
    process_song_file [] = Except.error SongFileError.indexError ∧
    (process_song_file []).isOk = false :=
  ⟨rfl, rfl⟩

/-- C4: the user rows of `process_log_file` are the five-column
projections of the filtered events with only exact-duplicate rows
removed, keeping the first occurrence: the result is a duplicate-free,
order-preserving subsequence holding exactly the rows that occur in the
input, it satisfies the keep-first recursion, and two rows that agree on
userId but differ in level are both retained. -/
theorem user_dimension_dedup (lookup : Lookup) (events : List ActivityEvent) :
    (process_log_file lookup events).userRows
        = dropDuplicates ((filteredConverted events).map mkUserRow) ∧
    List.Sublist (dropDuplicates ((filteredConverted events).map mkUserRow))
        ((filteredConverted events).map mkUserRow) ∧
    (dropDuplicates ((filteredConverted events).map mkUserRow)).Nodup ∧
    (∀ r, r ∈ dropDuplicates ((filteredConverted events).map mkUserRow)
        ↔ r ∈ (filteredConverted events).map mkUserRow) ∧
    (∀ (x : UserRow) (l : List UserRow),
        dropDuplicates (x :: l) = x :: dropDuplicates (l.filter fun y => !(y == x))) ∧
    (∀ r1 r2, r1 ∈ (filteredConverted events).map mkUserRow
        → r2 ∈ (filteredConverted events).map mkUserRow
        → r1.userId = r2.userId → r1.level ≠ r2.level
        → r1 ∈ dropDuplicates ((filteredConverted events).map mkUserRow)
          ∧ r2 ∈ dropDuplicates ((filteredConverted events).map mkUserRow)) := by
  have hmem : ∀ r : UserRow, r ∈ dropDuplicates ((filteredConverted events).map mkUserRow)
      ↔ r ∈ (filteredConverted events).map mkUserRow := by
    intro r
    rw [dropDuplicates, dropDupAux_mem]
    simp
  refine ⟨rfl, dropDupAux_sublist _ _, dropDupAux_nodup _ _, hmem,
    fun x l => dropDuplicates_cons x l, fun r1 r2 h1 h2 _ _ => ?_⟩
  exact ⟨(hmem r1).mpr h1, (hmem r2).mpr h2⟩

/-- Witness for C4: on a concrete pair of filtered events for the same
user with levels free and paid, both projected rows survive
deduplication. -/
theorem user_dimension_dedup_witness :
    mkUserRow (sampleEvent "NextSong" "s" "7" "free" 1000000)
        ∈ dropDuplicates ((filteredConverted [sampleEvent "NextSong" "s" "7" "free" 1000000,
            sampleEvent "NextSong" "s" "7" "paid" 2000000]).map mkUserRow) ∧
    mkUserRow (sampleEvent "NextSong" "s" "7" "paid" 2000000)
        ∈ dropDuplicates ((filteredConverted [sampleEvent "NextSong" "s" "7" "free" 1000000,
            sampleEvent "NextSong" "s" "7" "paid" 2000000]).map mkUserRow) :=
  (user_dimension_dedup (fun _ _ _ => Except.ok [])
      [sampleEvent "NextSong" "s" "7" "free" 1000000,
        sampleEvent "NextSong" "s" "7" "paid" 2000000]).2.2.2.2.2
    (mkUserRow (sampleEvent "NextSong" "s" "7" "free" 1000000))
    (mkUserRow (sampleEvent "NextSong" "s" "7" "paid" 2000000))
    (by decide) (by decide) rfl (by decide)

/-- C1 as written is refuted: when the lookup result set holds two
matches for the event's (song, artist, duration) triple, `fetchone`
takes the first row, so the emitted fact carries that row's non-null
(song_id, artist_id) instead of the claimed nulls. -/
theorem songplay_multiple_matches_not_null :
    ((process_log_file (fun _ _ _ => Except.ok [("S1", "A1"), ("S2", "A2")])
        [sampleEvent "NextSong" "Setanta" "91" "free" 1541990258000]).facts.map
        SongplayFact.song_id = [some "S1"]) ∧
    ((process_log_file (fun _ _ _ => Except.ok [("S1", "A1"), ("S2", "A2")])
        [sampleEvent "NextSong" "Setanta" "91" "free" 1541990258000]).facts.map
        SongplayFact.artist_id = [some "A1"]) ∧
    some "S1" ≠ (none : Option String) := by
  decide

/-- C1 amended: for every filtered event whose lookup succeeds, the
emitted fact carries the ids of the first row of the lookup result set —
in particular the unique match's ids when exactly one row matches — and
null ids exactly when the result set is empty; the remaining fields are
populated from the event in every case. -/
theorem songplay_resolver_first_match (lookup : Lookup) (events : List ActivityEvent)
    (pre : List ActivityEvent) (e : ActivityEvent) (post : List ActivityEvent)
    (rows : List (String × String))
    (hsplit : filteredConverted events = pre ++ e :: post)
    (hpre : ∀ p ∈ pre, ∃ rs, lookup p.song p.artist p.length = Except.ok rs)
    (he : lookup e.song e.artist e.length = Except.ok rows) :
    (process_log_file lookup events).facts[pre.length]?
        = some (mkSongplay e rows.head?) ∧
    (∀ m, rows = [m] → (mkSongplay e rows.head?).song_id = some m.1
        ∧ (mkSongplay e rows.head?).artist_id = some m.2) ∧
    (rows = [] → (mkSongplay e rows.head?).song_id = none
        ∧ (mkSongplay e rows.head?).artist_id = none) ∧
    (mkSongplay e rows.head?).start_time = SqlValue.timestamp e.ts ∧
    (mkSongplay e rows.head?).userId = e.userId ∧
    (mkSongplay e rows.head?).level = e.level ∧
    (mkSongplay e rows.head?).sessionId = e.sessionId ∧
    (mkSongplay e rows.head?).location = e.location ∧
    (mkSongplay e rows.head?).userAgent = e.userAgent := by
  refine ⟨?_, ?_, ?_, rfl, rfl, rfl, rfl, rfl, rfl⟩
  · have happ := resolveEvents_append lookup pre (e :: post) hpre
    have hfacts : (process_log_file lookup events).facts
        = pre.map (factOf lookup)
          ++ (mkSongplay e rows.head? :: (resolveEvents lookup post).1) := by
      simp [process_log_file, hsplit, happ, resolveEvents, he]
    rw [hfacts, List.getElem?_append_right (by simp)]
    simp
  · rintro m rfl
    exact ⟨rfl, rfl⟩
  · rintro rfl
    exact ⟨rfl, rfl⟩

/-- Witness for C1 amended: a single filtered event whose lookup returns
exactly one match yields the fact with that match's ids at position 0. -/
theorem songplay_resolver_first_match_witness :
    (process_log_file (fun _ _ _ => Except.ok [("S1", "A1")])
        [sampleEvent "NextSong" "Setanta" "91" "free" 1541990258000]).facts[(0 : Nat)]?
      = some (mkSongplay (sampleEvent "NextSong" "Setanta" "91" "free" 1541990258000)
          (some ("S1", "A1"))) := by
  have h := songplay_resolver_first_match
      (fun _ _ _ => Except.ok [("S1", "A1")])
      [sampleEvent "NextSong" "Setanta" "91" "free" 1541990258000]
      [] (sampleEvent "NextSong" "Setanta" "91" "free" 1541990258000) [] [("S1", "A1")]
      (by decide) (fun p hp => absurd hp (List.not_mem_nil p)) rfl
  simpa using h.1

/-- C6 is violated by the code: with one filtered event at the exact
second boundary 1541990258000 ms, the songplay fact's start_time is the
full timestamp while the sole TimeRow's start_time is only the
time-of-day component taken on line 61 of etl.py, so no TimeRow of the
batch carries the fact's start_time. -/
theorem fact_start_time_not_in_time_rows :
    ((process_log_file (fun _ _ _ => Except.ok [])
        [sampleEvent "NextSong" "s" "91" "free" 1541990258000]).facts.map
        SongplayFact.start_time = [SqlValue.timestamp 1541990258000]) ∧
    ((process_log_file (fun _ _ _ => Except.ok [])
        [sampleEvent "NextSong" "s" "91" "free" 1541990258000]).timeRows.map
        TimeRow.start_time = [SqlValue.timeOfDay (1541990258000 % 86400000)]) ∧
    ((process_log_file (fun _ _ _ => Except.ok [])
        [sampleEvent "NextSong" "s" "91" "free" 1541990258000]).facts.all fun f =>
      (process_log_file (fun _ _ _ => Except.ok [])
        [sampleEvent "NextSong" "s" "91" "free" 1541990258000]).timeRows.all fun t =>
        !(f.start_time == t.start_time)) = true := by
  decide

/-- C8: when the lookup capability itself errors while resolving one
event, the error propagates out of the songplay loop: the facts of the
earlier events of the file stand, but no fact is emitted for the failing
event or any later event, and the failure is surfaced instead of being
treated as a no-match. -/
theorem lookup_failure_aborts (lookup : Lookup) (events : List ActivityEvent)
    (pre : List ActivityEvent) (e : ActivityEvent) (post : List ActivityEvent)
    (err : LookupFailure)
    (hsplit : filteredConverted events = pre ++ e :: post)
    (hpre : ∀ p ∈ pre, ∃ rows, lookup p.song p.artist p.length = Except.ok rows)
    (he : lookup e.song e.artist e.length = Except.error err) :
    (process_log_file lookup events).facts = pre.map (factOf lookup) ∧
    (process_log_file lookup events).lookupError = some err ∧
    (process_log_file lookup events).facts.length = pre.length := by
  have happ := resolveEvents_append lookup pre (e :: post) hpre
  have h1 : resolveEvents lookup (e :: post) = ([], some err) := by
    simp [resolveEvents, he]
  rw [h1] at happ
  refine ⟨?_, ?_, ?_⟩ <;> simp [process_log_file, hsplit, happ]

/-- Witness for C8: a concrete two-event file whose second lookup raises;
only the first event's fact is emitted and the error is surfaced. -/
theorem lookup_failure_aborts_witness :
    (process_log_file
        (fun s _ _ => if s == "bad" then Except.error LookupFailure.failure else Except.ok [])
        [sampleEvent "NextSong" "good" "91" "free" 1541990258000,
          sampleEvent "NextSong" "bad" "91" "free" 1541990259000]).facts.length = 1 ∧
    (process_log_file
        (fun s _ _ => if s == "bad" then Except.error LookupFailure.failure else Except.ok [])
        [sampleEvent "NextSong" "good" "91" "free" 1541990258000,
          sampleEvent "NextSong" "bad" "91" "free" 1541990259000]).lookupError
      = some LookupFailure.failure := by
  have h := lookup_failure_aborts
      (fun s _ _ => if s == "bad" then Except.error LookupFailure.failure else Except.ok [])
      [sampleEvent "NextSong" "good" "91" "free" 1541990258000,
        sampleEvent "NextSong" "bad" "91" "free" 1541990259000]
      [sampleEvent "NextSong" "good" "91" "free" 1541990258000]
      (sampleEvent "NextSong" "bad" "91" "free" 1541990259000) []
      LookupFailure.failure (by decide)
      (fun p hp => by
        have hp' : p = sampleEvent "NextSong" "good" "91" "free" 1541990258000 := by
          simpa using hp
        subst hp'
        exact ⟨[], rfl⟩)
      rfl
  exact ⟨h.2.2.trans rfl, h.2.1⟩

/-- C9: the record parser is a pure function of the file contents — two
reads that see byte-for-byte identical contents for the path produce
identical record sequences, whatever else the two file systems differ
on. -/
theorem record_parser_pure (fs1 fs2 : String → Option String) (path : String)
    (h : fs1 path = fs2 path) :
    readRecords fs1 path = readRecords fs2 path := by
  rw [readRecords, readRecords, h]

/-- Witness for C9: two concrete file systems agreeing on one path parse
it identically. -/
theorem record_parser_pure_witness :
    readRecords (fun _ => some "a=1;b=2") "f.json"
      = readRecords (fun p => if p == "f.json" then some "a=1;b=2" else none) "f.json" :=
  record_parser_pure _ _ "f.json" (by decide)

end Etl
